import Mathlib

/-!
Verification of the configuration core of git-laminar-flow.

This file shallowly embeds the newest schema vintage of the configuration
module (the `*Base` entity classes, their `updateHash`/`toHash`/`resolveVersion`
methods, and the URI reference parsers) and proves or refutes the frozen
specification claims about it.

Modelling conventions:
* `Crypto.Hash` accumulates a byte stream via successive `hash.update(s)`
  calls; the final digest is a pure function of the concatenated stream
  (for every algorithm and text encoding).  We therefore model the sequence
  of `update` calls as a `List String` and the digest as the concatenation
  of that stream.  Distinctness of digests is settled at stream level.
* JavaScript truthiness guards such as `this.url && hash.update(this.url)`
  skip both `undefined` and the empty string; `optStr` models this.
* `JSON.stringify` over records serializes keys in insertion order; records
  are modelled as association lists, preserving that order.
-/

namespace Glf

/-- Byte-stream contribution of a JS guard `if (x) hash.update(x)` on an
optional string field: absent and empty strings (both falsy) contribute
nothing. -/
def optStr : Option String → List String
  | none => []
  | some s => if s = "" then [] else [s]

/-- Concatenation of per-element streams, modelling a JS
`for (const x of xs) { ...hash.update calls... }` loop. -/
def sjoin (f : α → List String) : List α → List String
  | [] => []
  | x :: xs => f x ++ sjoin f xs

/-- Emission of a JS `xs.length ? xs.slice() : undefined` canonicalization:
an empty collection is omitted from the document. -/
def optList (l : List α) : Option (List α) :=
  if l.isEmpty then none else some l

/-- JSON-compatible values, used for `Record<string, unknown>` fields
(`labels`, `annotations`, integration `options`) and dependency entries. -/
inductive Json where
  | str (s : String)
  | num (n : Int)
  | bool (b : Bool)
  | null
  | arr (elems : List Json)
  | obj (fields : List (String × Json))

/-- Escape of a single character inside a JSON string literal, as
`JSON.stringify` produces it for the characters exercised here. -/
def jsonEscapeChar (c : Char) : String :=
  if c = '"' then "\\\""
  else if c = '\\' then "\\\\"
  else if c = '\n' then "\\n"
  else if c = '\r' then "\\r"
  else if c = '\t' then "\\t"
  else String.singleton c

/-- Escape of a JSON string body. -/
def jsonEscape (s : String) : String :=
  String.join (s.toList.map jsonEscapeChar)

mutual

/-- Model of `JSON.stringify` on JSON-compatible values; object keys are
serialized in insertion (association-list) order. -/
def jsonStringify : Json → String
  | .str s => "\"" ++ jsonEscape s ++ "\""
  | .num n => toString n
  | .bool b => if b then "true" else "false"
  | .null => "null"
  | .arr xs => "[" ++ String.intercalate "," (jsonStringifyList xs) ++ "]"
  | .obj fs => "\x7b" ++ String.intercalate "," (jsonStringifyFields fs) ++ "\x7d"

/-- Serialization of a JSON array body. -/
def jsonStringifyList : List Json → List String
  | [] => []
  | x :: xs => jsonStringify x :: jsonStringifyList xs

/-- Serialization of a JSON object body. -/
def jsonStringifyFields : List (String × Json) → List String
  | [] => []
  | (k, v) :: fs => ("\"" ++ jsonEscape k ++ "\":" ++ jsonStringify v) :: jsonStringifyFields fs

end

/-- Stream contribution of a `Record<string, ...>` field hashed as
`if (!_.isEmpty(x)) hash.update(JSON.stringify(x))`. -/
def recordHash (l : List (String × Json)) : List String :=
  if l.isEmpty then [] else [jsonStringify (Json.obj l)]

/-- Emission of a `_.isEmpty(x) ? undefined : { ...x }` canonicalization of a
record field. -/
def optAssoc (l : List (String × Json)) : Option (List (String × Json)) :=
  if l.isEmpty then none else some l

/-- Upstream remote `{name, url}` of a `Config`. -/
structure Upstream where
  name : String
  url : String
deriving DecidableEq

/-- `TaggingBase`: an entry of the ordered `tags` list of a
Feature/Release/Hotfix (`{name, optional annotation}`). -/
structure Tagging where
  name : String
  annotation : Option String
deriving DecidableEq

/-- `SubmoduleBase` of the newest schema vintage.  The `shadow` flag is an
in-memory-only marker (absent from the document schema); `shadow?: boolean`
is modelled as a `Bool` (absent ≡ `false` under JS truthiness). -/
structure Submodule where
  name : String
  path : String
  url : Option String
  tags : List String
  labels : List (String × Json)
  annotations : List (String × Json)
  shadow : Bool

/-- `FeatureBase` of the newest schema vintage. -/
structure Feature where
  name : String
  branchName : String
  sourceSha : String
  upstream : Option String
  version : Option String
  tags : List Tagging
  shadow : Bool

/-- `ReleaseBase` of the newest schema vintage. -/
structure Release where
  name : String
  branchName : String
  sourceSha : String
  version : Option String
  upstream : Option String
  intermediate : Bool
  tags : List Tagging
  shadow : Bool

/-- `HotfixBase` of the newest schema vintage. -/
structure Hotfix where
  name : String
  branchName : String
  sourceSha : String
  version : Option String
  upstream : Option String
  intermediate : Bool
  tags : List Tagging
  shadow : Bool

/-- `SupportBase` of the newest schema vintage: a parallel Gitflow lineage
with its own features/releases/hotfixes. -/
structure Support where
  name : String
  masterBranchName : String
  developBranchName : String
  sourceSha : String
  developVersion : Option String
  masterVersion : Option String
  upstream : Option String
  features : List Feature
  releases : List Release
  hotfixes : List Hotfix

/-- `IntegrationBase`: plugin identifier plus arbitrary options record. -/
structure Integration where
  plugin : String
  options : List (String × Json)

/-- `MessageTemplateBase` `{name, message}`. -/
structure MessageTemplate where
  name : String
  message : String
deriving DecidableEq

/-- `TagTemplateBase` `{name, tag, optional annotation}`. -/
structure TagTemplate where
  name : String
  tag : String
  annotation : Option String
deriving DecidableEq

/-- `ConfigBase` of the newest schema vintage (the root entity). -/
structure Config where
  apiVersion : Option String
  identifier : String
  managed : Bool
  developVersion : Option String
  masterVersion : Option String
  upstreams : List Upstream
  submodules : List Submodule
  features : List Feature
  releases : List Release
  hotfixes : List Hotfix
  supports : List Support
  included : List String
  excluded : List String
  featureMessageTemplate : Option String
  releaseMessageTemplate : Option String
  hotfixMessageTemplate : Option String
  releaseTagTemplate : Option String
  hotfixTagTemplate : Option String
  tags : List String
  integrations : List Integration
  commitMessageTemplates : List MessageTemplate
  tagTemplates : List TagTemplate
  masterBranchName : Option String
  developBranchName : Option String
  dependencies : Option (List Json)
  labels : List (String × Json)
  annotations : List (String × Json)

/-- `TaggingBase.updateHash`: `update(name)` then a truthiness-guarded update
of the annotation. -/
def Tagging.updateHash : Tagging → List String
  | ⟨n, a⟩ => [n] ++ optStr a

/-- `SubmoduleBase.updateHash`. -/
def Submodule.updateHash (s : Submodule) : List String :=
  [s.name, s.path] ++ optStr s.url ++ s.tags
  ++ recordHash s.labels ++ recordHash s.annotations

/-- `FeatureBase.updateHash`: name, branchName, sourceSha, guarded version,
guarded upstream, then the ordered `tags` streams. -/
def Feature.updateHash (f : Feature) : List String :=
  [f.name, f.branchName, f.sourceSha] ++ optStr f.version ++ optStr f.upstream
  ++ sjoin Tagging.updateHash f.tags

/-- `ReleaseBase.updateHash`: additionally feeds
`this.intermediate.toString()` (so `"true"`/`"false"`). -/
def Release.updateHash (r : Release) : List String :=
  [r.name, r.branchName, r.sourceSha] ++ optStr r.version ++ optStr r.upstream
  ++ [if r.intermediate then "true" else "false"]
  ++ sjoin Tagging.updateHash r.tags

/-- `HotfixBase.updateHash`. -/
def Hotfix.updateHash (h : Hotfix) : List String :=
  [h.name, h.branchName, h.sourceSha] ++ optStr h.version ++ optStr h.upstream
  ++ [if h.intermediate then "true" else "false"]
  ++ sjoin Tagging.updateHash h.tags

/-- `SupportBase.updateHash`: fixed scalar fields, then the nested
features/releases/hotfixes with shadow-flagged entries filtered out. -/
def Support.updateHash (s : Support) : List String :=
  [s.name, s.masterBranchName, s.developBranchName, s.sourceSha]
  ++ optStr s.developVersion ++ optStr s.masterVersion ++ optStr s.upstream
  ++ sjoin Feature.updateHash (s.features.filter (fun i => !i.shadow))
  ++ sjoin Release.updateHash (s.releases.filter (fun i => !i.shadow))
  ++ sjoin Hotfix.updateHash (s.hotfixes.filter (fun i => !i.shadow))

/-- `IntegrationBase.updateHash`: plugin, then `JSON.stringify(options)`
unconditionally (even for an empty record). -/
def Integration.updateHash (i : Integration) : List String :=
  [i.plugin, jsonStringify (Json.obj i.options)]

/-- `MessageTemplateBase.updateHash`. -/
def MessageTemplate.updateHash (m : MessageTemplate) : List String :=
  [m.name, m.message]

/-- `TagTemplateBase.updateHash`. -/
def TagTemplate.updateHash : TagTemplate → List String
  | ⟨n, t, a⟩ => [n, t] ++ optStr a

/-- Tail of `ConfigBase.updateHash` after the `managed` sentinel: the
version fields onward, in the source's statement order. -/
def Config.hashTail (c : Config) : List String :=
  optStr c.developVersion ++ optStr c.masterVersion
  ++ sjoin (fun u : Upstream => [u.name, u.url]) c.upstreams
  ++ c.included ++ c.excluded
  ++ sjoin Submodule.updateHash (c.submodules.filter (fun i => !i.shadow))
  ++ sjoin Feature.updateHash (c.features.filter (fun i => !i.shadow))
  ++ sjoin Release.updateHash (c.releases.filter (fun i => !i.shadow))
  ++ sjoin Hotfix.updateHash (c.hotfixes.filter (fun i => !i.shadow))
  ++ sjoin Support.updateHash c.supports
  ++ optStr c.featureMessageTemplate ++ optStr c.releaseMessageTemplate
  ++ optStr c.hotfixMessageTemplate ++ optStr c.releaseTagTemplate
  ++ optStr c.hotfixTagTemplate
  ++ c.tags
  ++ sjoin Integration.updateHash c.integrations
  ++ sjoin MessageTemplate.updateHash c.commitMessageTemplates
  ++ sjoin TagTemplate.updateHash c.tagTemplates
  ++ optStr c.masterBranchName ++ optStr c.developBranchName
  ++ sjoin (fun d => [jsonStringify d]) (c.dependencies.getD [])
  ++ recordHash c.labels ++ recordHash c.annotations

/-- `ConfigBase.updateHash`: guarded apiVersion, identifier, the
`'unmanaged'` sentinel when `managed` is false, then the remaining fields
in the source's statement order. -/
def Config.updateHash (c : Config) : List String :=
  optStr c.apiVersion ++ [c.identifier]
  ++ (if c.managed then [] else ["unmanaged"])
  ++ Config.hashTail c

/-- Digest of a Config tree, modelled as the exact byte stream fed to the
`Crypto.Hash` object by `ConfigBase.calculateHash` (the digest of any
algorithm/encoding is a function of this stream). -/
def Config.computeHash (c : Config) : String :=
  String.join (Config.updateHash c)

/-- `ConfigBase.calculateHash` with the algorithm/encoding pair abstracted
as the pure digest function it determines. -/
def Config.calculateHash (digest : String → String) (c : Config) : String :=
  digest (String.join (Config.updateHash c))

/-! Canonical documents: the objects produced by the `toHash` serializers.
`Option` models JS fields that are emitted as `undefined` (omitted). -/

/-- Document emitted by `SubmoduleBase.toHash`.  The document schema has no
`shadow` field — the flag is never persisted. -/
structure SubmoduleDoc where
  name : String
  path : String
  url : Option String
  tags : Option (List String)
  labels : Option (List (String × Json))
  annotations : Option (List (String × Json))

/-- Document shape of a Feature: what `ConfigFeatureSchema` accepts.  The
schema accepts an optional `tags` list, but `FeatureBase.toHash` never emits
one. -/
structure FeatureDoc where
  name : String
  branchName : String
  sourceSha : String
  version : Option String
  upstream : Option String
  tags : Option (List Tagging)

/-- Document shape of a Release. -/
structure ReleaseDoc where
  name : String
  branchName : String
  sourceSha : String
  version : Option String
  upstream : Option String
  intermediate : Bool
  tags : Option (List Tagging)

/-- Document shape of a Hotfix. -/
structure HotfixDoc where
  name : String
  branchName : String
  sourceSha : String
  version : Option String
  upstream : Option String
  intermediate : Bool
  tags : Option (List Tagging)

/-- Document emitted by `SupportBase.toHash`. -/
structure SupportDoc where
  name : String
  masterBranchName : String
  developBranchName : String
  sourceSha : String
  developVersion : Option String
  masterVersion : Option String
  upstream : Option String
  features : Option (List FeatureDoc)
  releases : Option (List ReleaseDoc)
  hotfixes : Option (List HotfixDoc)

/-- Document emitted by `IntegrationBase.toHash`. -/
structure IntegrationDoc where
  plugin : String
  options : Option (List (String × Json))

/-- Document emitted by `ConfigBase.toHash`: the canonical, minimal,
default-free serialization of a Config tree. -/
structure ConfigDoc where
  apiVersion : Option String
  identifier : String
  managed : Option Bool
  developVersion : Option String
  masterVersion : Option String
  upstreams : Option (List Upstream)
  submodules : Option (List SubmoduleDoc)
  features : Option (List FeatureDoc)
  releases : Option (List ReleaseDoc)
  hotfixes : Option (List HotfixDoc)
  supports : Option (List SupportDoc)
  included : Option (List String)
  excluded : Option (List String)
  featureMessageTemplate : Option String
  releaseMessageTemplate : Option String
  hotfixMessageTemplate : Option String
  releaseTagTemplate : Option String
  hotfixTagTemplate : Option String
  tags : Option (List String)
  integrations : Option (List IntegrationDoc)
  commitMessageTemplates : Option (List MessageTemplate)
  tagTemplates : Option (List TagTemplate)
  masterBranchName : Option String
  developBranchName : Option String
  dependencies : Option (List Json)
  labels : Option (List (String × Json))
  annotations : Option (List (String × Json))

/-- The registry's current latest API version (`API_VERSION = 'v1.5'`). -/
def API_VERSION : String := "v1.5"

/-- Result of the module-level `resolveApiVersion()`: models the external
semver dependency's `Semver.coerce(API_VERSION).toString()`, which coerces
`"v1.5"` to `"1.5.0"`. -/
def resolveApiVersion : String := "1.5.0"

/-- `SubmoduleBase.toHash`. -/
def Submodule.toHash (s : Submodule) : SubmoduleDoc :=
  { name := s.name, path := s.path, url := s.url, tags := optList s.tags,
    labels := optAssoc s.labels, annotations := optAssoc s.annotations }

/-- `FeatureBase.toHash`: emits only name, branchName, sourceSha, version and
upstream — the `tags` list is never emitted. -/
def Feature.toHash (f : Feature) : FeatureDoc :=
  { name := f.name, branchName := f.branchName, sourceSha := f.sourceSha,
    version := f.version, upstream := f.upstream, tags := none }

/-- `ReleaseBase.toHash`: like Feature plus `intermediate`; no `tags`. -/
def Release.toHash (r : Release) : ReleaseDoc :=
  { name := r.name, branchName := r.branchName, sourceSha := r.sourceSha,
    version := r.version, upstream := r.upstream,
    intermediate := r.intermediate, tags := none }

/-- `HotfixBase.toHash`. -/
def Hotfix.toHash (h : Hotfix) : HotfixDoc :=
  { name := h.name, branchName := h.branchName, sourceSha := h.sourceSha,
    version := h.version, upstream := h.upstream,
    intermediate := h.intermediate, tags := none }

/-- `SupportBase.toHash`: shadow-flagged children are dropped before
emission; empty collections are omitted. -/
def Support.toHash (s : Support) : SupportDoc :=
  let features := s.features.filter (fun i => !i.shadow)
  let releases := s.releases.filter (fun i => !i.shadow)
  let hotfixes := s.hotfixes.filter (fun i => !i.shadow)
  { name := s.name, masterBranchName := s.masterBranchName,
    developBranchName := s.developBranchName, sourceSha := s.sourceSha,
    developVersion := s.developVersion, masterVersion := s.masterVersion,
    upstream := s.upstream,
    features := if features.isEmpty then none else some (features.map Feature.toHash),
    releases := if releases.isEmpty then none else some (releases.map Release.toHash),
    hotfixes := if hotfixes.isEmpty then none else some (hotfixes.map Hotfix.toHash) }

/-- `IntegrationBase.toHash`. -/
def Integration.toHash (i : Integration) : IntegrationDoc :=
  { plugin := i.plugin, options := optAssoc i.options }

/-- `MessageTemplateBase.toHash` re-emits both fields. -/
def MessageTemplate.toHash (m : MessageTemplate) : MessageTemplate :=
  { name := m.name, message := m.message }

/-- `TagTemplateBase.toHash` re-emits all three fields. -/
def TagTemplate.toHash : TagTemplate → TagTemplate
  | ⟨n, t, a⟩ => ⟨n, t, a⟩

/-- `ConfigBase.toHash(stampApiVersion)`: the canonical serializer.  Omits
absent fields, empty collections and the implicit default `managed: true`
(`managed: false` is kept); drops shadow-flagged entries before emission;
when `stampApiVersion` is set, writes `'v' + resolveApiVersion()`. -/
def Config.toHash (stampApiVersion : Bool) (c : Config) : ConfigDoc :=
  let submodules := c.submodules.filter (fun i => !i.shadow)
  let features := c.features.filter (fun i => !i.shadow)
  let releases := c.releases.filter (fun i => !i.shadow)
  let hotfixes := c.hotfixes.filter (fun i => !i.shadow)
  { apiVersion := if stampApiVersion then some ("v" ++ resolveApiVersion) else c.apiVersion,
    identifier := c.identifier,
    managed := if c.managed then none else some false,
    developVersion := c.developVersion,
    masterVersion := c.masterVersion,
    upstreams := optList c.upstreams,
    submodules := if submodules.isEmpty then none else some (submodules.map Submodule.toHash),
    features := if features.isEmpty then none else some (features.map Feature.toHash),
    releases := if releases.isEmpty then none else some (releases.map Release.toHash),
    hotfixes := if hotfixes.isEmpty then none else some (hotfixes.map Hotfix.toHash),
    supports := if c.supports.isEmpty then none else some (c.supports.map Support.toHash),
    included := optList c.included,
    excluded := optList c.excluded,
    featureMessageTemplate := c.featureMessageTemplate,
    releaseMessageTemplate := c.releaseMessageTemplate,
    hotfixMessageTemplate := c.hotfixMessageTemplate,
    releaseTagTemplate := c.releaseTagTemplate,
    hotfixTagTemplate := c.hotfixTagTemplate,
    tags := optList c.tags,
    integrations := if c.integrations.isEmpty then none
      else some (c.integrations.map Integration.toHash),
    commitMessageTemplates := if c.commitMessageTemplates.isEmpty then none
      else some (c.commitMessageTemplates.map MessageTemplate.toHash),
    tagTemplates := if c.tagTemplates.isEmpty then none
      else some (c.tagTemplates.map TagTemplate.toHash),
    masterBranchName := c.masterBranchName,
    developBranchName := c.developBranchName,
    dependencies := match c.dependencies with
      | none => none
      | some l => if l.isEmpty then none else some l,
    labels := optAssoc c.labels,
    annotations := optAssoc c.annotations }

/-- The spec's `toCanonical(tree)` with its default `stampVersion=false`:
the source's `ConfigBase.toHash(false)`. -/
def toCanonical (c : Config) : ConfigDoc :=
  Config.toHash false c

/-! The schema registry's `validate` builds an entity tree from a document.
The concrete `fromSchema` constructors live outside the provided sources, so
`validate` is modelled from the spec. -/

/-- Modelled from the spec: the Schema Version Registry's `validate` for a
submodule document (the concrete `Submodule.fromSchema` constructor is not
among the provided sources).  Absent collections become empty, and the
in-memory `shadow` flag of a freshly validated entry is unset. -/
def validateSubmodule (d : SubmoduleDoc) : Submodule :=
  { name := d.name, path := d.path, url := d.url, tags := d.tags.getD [],
    labels := d.labels.getD [], annotations := d.annotations.getD [],
    shadow := false }

/-- Modelled from the spec: `validate` for a feature document. -/
def validateFeature (d : FeatureDoc) : Feature :=
  { name := d.name, branchName := d.branchName, sourceSha := d.sourceSha,
    version := d.version, upstream := d.upstream, tags := d.tags.getD [],
    shadow := false }

/-- Modelled from the spec: `validate` for a release document
(`intermediate` absent means false). -/
def validateRelease (d : ReleaseDoc) : Release :=
  { name := d.name, branchName := d.branchName, sourceSha := d.sourceSha,
    version := d.version, upstream := d.upstream,
    intermediate := d.intermediate, tags := d.tags.getD [], shadow := false }

/-- Modelled from the spec: `validate` for a hotfix document. -/
def validateHotfix (d : HotfixDoc) : Hotfix :=
  { name := d.name, branchName := d.branchName, sourceSha := d.sourceSha,
    version := d.version, upstream := d.upstream,
    intermediate := d.intermediate, tags := d.tags.getD [], shadow := false }

/-- Modelled from the spec: `validate` for a support document. -/
def validateSupport (d : SupportDoc) : Support :=
  { name := d.name, masterBranchName := d.masterBranchName,
    developBranchName := d.developBranchName, sourceSha := d.sourceSha,
    developVersion := d.developVersion, masterVersion := d.masterVersion,
    upstream := d.upstream,
    features := (d.features.getD []).map validateFeature,
    releases := (d.releases.getD []).map validateRelease,
    hotfixes := (d.hotfixes.getD []).map validateHotfix }

/-- Modelled from the spec: `validate` for an integration document. -/
def validateIntegration (d : IntegrationDoc) : Integration :=
  { plugin := d.plugin, options := d.options.getD [] }

/-- Modelled from the spec: the Schema Version Registry's
`validate(rawDocument) -> Tree` for a config document.  Absent optional
fields take their documented defaults (`managed` defaults to true, absent
collections become empty); shadow flags are in-memory-only and start unset. -/
def validate (d : ConfigDoc) : Config :=
  { apiVersion := d.apiVersion,
    identifier := d.identifier,
    managed := d.managed.getD true,
    developVersion := d.developVersion,
    masterVersion := d.masterVersion,
    upstreams := d.upstreams.getD [],
    submodules := (d.submodules.getD []).map validateSubmodule,
    features := (d.features.getD []).map validateFeature,
    releases := (d.releases.getD []).map validateRelease,
    hotfixes := (d.hotfixes.getD []).map validateHotfix,
    supports := (d.supports.getD []).map validateSupport,
    included := d.included.getD [],
    excluded := d.excluded.getD [],
    featureMessageTemplate := d.featureMessageTemplate,
    releaseMessageTemplate := d.releaseMessageTemplate,
    hotfixMessageTemplate := d.hotfixMessageTemplate,
    releaseTagTemplate := d.releaseTagTemplate,
    hotfixTagTemplate := d.hotfixTagTemplate,
    tags := d.tags.getD [],
    integrations := (d.integrations.getD []).map validateIntegration,
    commitMessageTemplates := d.commitMessageTemplates.getD [],
    tagTemplates := d.tagTemplates.getD [],
    masterBranchName := d.masterBranchName,
    developBranchName := d.developBranchName,
    dependencies := d.dependencies,
    labels := d.labels.getD [],
    annotations := d.annotations.getD [] }

/-! Version resolution.  `resolveVersion` relies on the external `semver`
dependency's `Semver.clean`, modelled below: trim surrounding whitespace,
strip a leading run of `=`/`v` characters, trim again (the `SemVer`
constructor trims its input), then parse the strict
`major.minor.patch[-prerelease][+build]` grammar and return the normalized
version (prerelease kept, build metadata dropped). -/

/-- Whitespace as trimmed by JS `String.trim` (the common characters). -/
def isJsSpace (c : Char) : Bool :=
  c = ' ' || c = '\t' || c = '\n' || c = '\r'

/-- Trim from the front. -/
def trimLeft (cs : List Char) : List Char :=
  cs.dropWhile isJsSpace

/-- JS `String.trim` over a character list. -/
def jsTrim (cs : List Char) : List Char :=
  ((trimLeft cs).reverse.dropWhile isJsSpace).reverse

/-- The `replace(/^[=v]+/, '')` step of `Semver.clean`. -/
def stripLeadingEqV : List Char → List Char
  | [] => []
  | c :: rest => if c = '=' || c = 'v' then stripLeadingEqV rest else c :: rest

/-- Decimal digit test. -/
def isDigitCh (c : Char) : Bool :=
  '0' ≤ c && c ≤ '9'

/-- Characters allowed in semver prerelease/build identifiers. -/
def isIdentCh (c : Char) : Bool :=
  isDigitCh c || ('a' ≤ c && c ≤ 'z') || ('A' ≤ c && c ≤ 'Z') || c = '-'

/-- Strict semver numeric component: nonempty digits, no leading zero. -/
def validNum (cs : List Char) : Bool :=
  !cs.isEmpty && cs.all isDigitCh && !(cs.head? = some '0' && cs.length ≠ 1)

/-- Strict semver prerelease identifier: nonempty, identifier characters,
and purely numeric identifiers may not have a leading zero. -/
def validPrereleaseId (cs : List Char) : Bool :=
  !cs.isEmpty && cs.all isIdentCh
    && !(cs.all isDigitCh && cs.head? = some '0' && cs.length ≠ 1)

/-- Semver build identifier: nonempty identifier characters. -/
def validBuildId (cs : List Char) : Bool :=
  !cs.isEmpty && cs.all isIdentCh

/-- Split at the first occurrence of a separator sequence, returning the
parts before and after it (`none` when the separator does not occur);
models the first hit of a JS `String.split`. -/
def findSplit (sep : List Char) : List Char → Option (List Char × List Char)
  | [] => none
  | c :: rest =>
    if sep.isPrefixOf (c :: rest) then some ([], (c :: rest).drop sep.length)
    else
      match findSplit sep rest with
      | some (pre, post) => some (c :: pre, post)
      | none => none

/-- JS `s.split(sep)` for a single-character separator (all parts). -/
def jsSplitAll (sep : Char) : List Char → List (List Char)
  | [] => [[]]
  | c :: rest =>
    match jsSplitAll sep rest with
    | [] => [[]]
    | h :: t => if c = sep then [] :: h :: t else (c :: h) :: t

/-- The `major.minor.patch` core: exactly three valid numeric components. -/
def validMmp (cs : List Char) : Bool :=
  match jsSplitAll '.' cs with
  | [maj, minr, pat] => validNum maj && validNum minr && validNum pat
  | _ => false

/-- A valid dot-separated prerelease suffix. -/
def validPrerelease (cs : List Char) : Bool :=
  (jsSplitAll '.' cs).all validPrereleaseId

/-- A valid dot-separated build suffix. -/
def validBuild (cs : List Char) : Bool :=
  (jsSplitAll '.' cs).all validBuildId

/-- Model of the external `Semver.clean` (strict mode): returns the
normalized `major.minor.patch[-prerelease]` on success and `none` on any
parse failure. -/
def semverClean (s : String) : Option String :=
  let t := jsTrim (stripLeadingEqV (jsTrim s.toList))
  let core_build := match findSplit ['+'] t with
    | some (core, build) => (core, some build)
    | none => (t, (none : Option (List Char)))
  let core := core_build.1
  let versionPart := match findSplit ['-'] core with
    | some (mmp, pre) => (mmp, some pre)
    | none => (core, (none : Option (List Char)))
  let buildOk := match core_build.2 with
    | none => true
    | some b => validBuild b
  let preOk := match versionPart.2 with
    | none => true
    | some p => validPrerelease p
  if validMmp versionPart.1 && preOk && buildOk then
    some core.asString
  else
    none

/-- Error raised when a declared version string is not semver-coercible
(the spec's `VersionFormatError`, carrying the raw string). -/
inductive VersionError where
  | versionFormat (raw : String)
deriving DecidableEq

/-- The branch selector of `resolveVersion` (`'develop' | 'master'`). -/
inductive BranchType where
  | develop
  | master
deriving DecidableEq

/-- `ConfigBase.resolveVersion(type = 'develop')`: picks
`developVersion`/`masterVersion`, returns nothing when the selected value is
falsy (absent or empty), the cleaned semver when parsable, and a
`VersionFormatError` carrying the raw string otherwise. -/
def Config.resolveVersion (c : Config) (type : BranchType) :
    Except VersionError (Option String) :=
  let currentVersion := match type with
    | .develop => c.developVersion
    | .master => c.masterVersion
  match currentVersion with
  | none => .ok none
  | some v =>
    if v = "" then .ok none
    else
      match semverClean v with
      | some version => .ok (some version)
      | none => .error (.versionFormat v)

/-- `SupportBase.resolveVersion(type = 'develop')` (same body as Config's). -/
def Support.resolveVersion (s : Support) (type : BranchType) :
    Except VersionError (Option String) :=
  let currentVersion := match type with
    | .develop => s.developVersion
    | .master => s.masterVersion
  match currentVersion with
  | none => .ok none
  | some v =>
    if v = "" then .ok none
    else
      match semverClean v with
      | some version => .ok (some version)
      | none => .error (.versionFormat v)

/-! Reference Resolver: `parseConfigReference` over Config Reference URIs.
`ConfigUriSchema` splits the raw string on `'://'` and requires the part
before the first separator to be one of six protocol literals and the part
after it (`parts[1]` of the JS split) to be present.  The Zod
`.url()` well-formedness pre-check is external to the split logic; the
claims quantify only over URIs that pass it, which is captured here by
stating them over URIs whose split succeeds. -/

/-- Protocol of a URI: the text before the first `'://'` (`parts[0]` of the
JS split), or the whole string when the separator is absent. -/
def uriProtocol (uri : String) : String :=
  match findSplit "://".toList uri.toList with
  | some (pre, _) => pre.asString
  | none => uri

/-- Qualifier of a URI: `parts[1]` of the JS `'://'` split (the text between
the first and second separator occurrence), `none` when there is no
separator. -/
def uriQualifier (uri : String) : Option String :=
  match findSplit "://".toList uri.toList with
  | none => none
  | some (_, post) =>
    match findSplit "://".toList post with
    | none => some post.asString
    | some (pre, _) => some pre.asString

/-- Slash-delimited segments of a glfs qualifier (JS `qualifier.split('/')`). -/
def qualifierSegments (q : String) : List String :=
  (jsSplitAll '/' q.toList).map List.asString

/-- Structured descriptor produced by `parseConfigReference`.  The glfs
`namespace` field is spelled `nspace` (`namespace` is a Lean keyword). -/
inductive ConfigReference where
  | config
  | file (path : String)
  | branch (branchName : String)
  | http (protocol : String) (url : String)
  | glfs (hostname : Option String) (nspace : String) (name : String)
      (support : Option String)
deriving DecidableEq

/-- Parse failures of `parseConfigReference`: an unrecognized protocol
(rejected by the Zod literal union, carrying the offending protocol — the
spec's `UnsupportedProtocolError`) or a recognized protocol with a malformed
qualifier (the spec's `MalformedUriError`, carrying the offending URI). -/
inductive ConfigUriError where
  | unsupportedProtocol (protocol : String)
  | malformedUri (uri : String)
deriving DecidableEq

/-- The closed protocol set of `ConfigUriSchema`'s literal union. -/
def configProtocols : List String :=
  ["config", "file", "branch", "http", "https", "glfs"]

/-- `parseConfigReference` of the newest vintage: dispatch on the protocol;
a glfs qualifier is split on `/` into 4, 3 or 2 segments assigned
positionally, any other segment count is a malformed-URI error. -/
def parseConfigReference (uri : String) : Except ConfigUriError ConfigReference :=
  match uriQualifier uri with
  | none => .error (.malformedUri uri)
  | some qualifier =>
    let protocol := uriProtocol uri
    if protocol = "config" then .ok .config
    else if protocol = "file" then .ok (.file qualifier)
    else if protocol = "branch" then .ok (.branch qualifier)
    else if protocol = "http" ∨ protocol = "https" then .ok (.http protocol qualifier)
    else if protocol = "glfs" then
      match qualifierSegments qualifier with
      | [a, b, c, d] => .ok (.glfs (some a) b c (some d))
      | [a, b, c] => .ok (.glfs (some a) b c none)
      | [a, b] => .ok (.glfs none a b none)
      | _ => .error (.malformedUri uri)
    else .error (.unsupportedProtocol protocol)

/-- `parseElementUri`: an Element Reference `type://qualifier` has one of
four type literals and an opaque qualifier returned unparsed. -/
def parseElementUri (uri : String) : Except ConfigUriError (String × String) :=
  match uriQualifier uri with
  | none => .error (.malformedUri uri)
  | some qualifier =>
    let type := uriProtocol uri
    if type = "feature" ∨ type = "release" ∨ type = "hotfix" ∨ type = "support" then
      .ok (type, qualifier)
    else .error (.unsupportedProtocol type)

/-! Fixtures and helper lemmas. -/

/-- A Config tree with every optional field absent and every collection
empty, used as the base of concrete test inputs. -/
def emptyConfig : Config :=
  { apiVersion := none, identifier := "", managed := true,
    developVersion := none, masterVersion := none, upstreams := [],
    submodules := [], features := [], releases := [], hotfixes := [],
    supports := [], included := [], excluded := [],
    featureMessageTemplate := none, releaseMessageTemplate := none,
    hotfixMessageTemplate := none, releaseTagTemplate := none,
    hotfixTagTemplate := none, tags := [], integrations := [],
    commitMessageTemplates := [], tagTemplates := [],
    masterBranchName := none, developBranchName := none,
    dependencies := none, labels := [], annotations := [] }

/-- A plain feature with no version, upstream, tags or shadow flag. -/
def sampleFeature : Feature :=
  { name := "f", branchName := "b", sourceSha := "s", upstream := none,
    version := none, tags := [], shadow := false }

/-- Length of a left fold of string concatenation. -/
theorem foldl_append_length (l : List String) :
    ∀ init : String,
      (l.foldl (fun a b => a ++ b) init).length
        = init.length + (l.map String.length).sum := by
  induction l with
  | nil => intro init; simp
  | cons h t ih =>
    intro init
    simp only [List.foldl_cons, ih, String.length_append, List.map_cons,
      List.sum_cons]
    omega

/-- Length of `String.join` is the sum of the component lengths. -/
theorem join_length (l : List String) :
    (String.join l).length = (l.map String.length).sum := by
  have := foldl_append_length l ""
  simpa [String.join] using this

/-- The tail of the hash stream does not read the `managed` flag. -/
theorem hashTail_set_managed (c : Config) (b : Bool) :
    Config.hashTail { c with managed := b } = Config.hashTail c := rfl

end Glf

deriving instance DecidableEq for Except

namespace Glf

/-- C10: the hash fold concatenates field values with no delimiters or
labels, so distinct trees can feed identical byte streams and therefore
collide under every digest algorithm: a string moved from `included` to
`excluded`, and an upstream `{name:'ab', url:'c'}` versus
`{name:'a', url:'bc'}`, leave the stream unchanged. -/
theorem C10_hash_collisions :
    ({ emptyConfig with identifier := "i", included := ["x"] } ≠
        { emptyConfig with identifier := "i", excluded := ["x"] } ∧
      Config.computeHash { emptyConfig with identifier := "i", included := ["x"] } =
        Config.computeHash { emptyConfig with identifier := "i", excluded := ["x"] } ∧
      ∀ digest : String → String,
        Config.calculateHash digest { emptyConfig with identifier := "i", included := ["x"] } =
          Config.calculateHash digest { emptyConfig with identifier := "i", excluded := ["x"] })
    ∧ ({ emptyConfig with identifier := "i", upstreams := [⟨"ab", "c"⟩] } ≠
        { emptyConfig with identifier := "i", upstreams := [⟨"a", "bc"⟩] } ∧
      Config.computeHash { emptyConfig with identifier := "i", upstreams := [⟨"ab", "c"⟩] } =
        Config.computeHash { emptyConfig with identifier := "i", upstreams := [⟨"a", "bc"⟩] } ∧
      ∀ digest : String → String,
        Config.calculateHash digest { emptyConfig with identifier := "i", upstreams := [⟨"ab", "c"⟩] } =
          Config.calculateHash digest { emptyConfig with identifier := "i", upstreams := [⟨"a", "bc"⟩] }) := by
  refine ⟨⟨?_, ?_, ?_⟩, ⟨?_, ?_, ?_⟩⟩
  · intro h
    exact absurd (congrArg Config.included h) (by decide)
  · decide
  · intro digest
    exact congrArg digest (by decide)
  · intro h
    exact absurd (congrArg Config.upstreams h) (by decide)
  · decide
  · intro digest
    exact congrArg digest (by decide)

/-- C9: the canonical serialization of a Feature omits its ordered Tagging
list entirely (only name, branchName, sourceSha, version, upstream are
emitted) even though that list contributes to the Feature's hash stream, so
a Feature's tags are lost on persistence. -/
theorem C9_feature_tags_dropped :
    (∀ (f : Feature) (ts : List Tagging),
      Feature.toHash { f with tags := ts } = Feature.toHash f)
    ∧ (∀ f : Feature, (Feature.toHash f).tags = none)
    ∧ (∀ f : Feature, Feature.toHash f =
        { name := f.name, branchName := f.branchName, sourceSha := f.sourceSha,
          version := f.version, upstream := f.upstream, tags := none })
    ∧ Feature.updateHash { sampleFeature with tags := [⟨"t", none⟩] } ≠
        Feature.updateHash sampleFeature := by
  refine ⟨fun f ts => rfl, fun f => rfl, fun f => rfl, by decide⟩

/-- C3: `managed:false` feeds the literal `'unmanaged'` sentinel into the
hash stream right after the identifier, so it hashes differently from
`managed:true`; `managed:true` contributes nothing, and a document with
`managed` absent validates identically to one with `managed:true`, hence
hashes identically. -/
theorem C3_managed_sentinel :
    (∀ c : Config, Config.updateHash { c with managed := false } =
        optStr c.apiVersion ++ [c.identifier] ++ ["unmanaged"] ++ Config.hashTail c)
    ∧ (∀ c : Config, Config.updateHash { c with managed := true } =
        optStr c.apiVersion ++ [c.identifier] ++ Config.hashTail c)
    ∧ (∀ c : Config, Config.computeHash { c with managed := false } ≠
        Config.computeHash { c with managed := true })
    ∧ (∀ d : ConfigDoc, validate { d with managed := none } =
        validate { d with managed := some true })
    ∧ (∀ d : ConfigDoc, Config.computeHash (validate { d with managed := none }) =
        Config.computeHash (validate { d with managed := some true })) := by
  refine ⟨fun c => rfl, fun c => by simp [Config.updateHash, hashTail_set_managed],
    ?_, fun d => rfl, fun d => rfl⟩
  intro c h
  have hlen := congrArg String.length h
  simp only [Config.computeHash, Config.updateHash, hashTail_set_managed,
    join_length, List.map_append, List.sum_append, ite_true, ite_false] at hlen
  have h9 : "unmanaged".length = 9 := rfl
  simp only [Bool.false_eq_true, if_false, List.map_cons, List.map_nil,
    List.sum_cons, List.sum_nil, h9] at hlen
  omega

/-! Per-field hash-stream segments, named after the spec's traversal
vocabulary, used to state the traversal-order claim. -/

/-- Stream segment of the `identifier` field. -/
def identifierSegment (c : Config) : List String :=
  [c.identifier]

/-- Stream segment of the `apiVersion` field (absent contributes nothing). -/
def apiVersionSegment (c : Config) : List String :=
  optStr c.apiVersion

/-- Stream segment of the `managed` flag (the `'unmanaged'` sentinel). -/
def managedSegment (c : Config) : List String :=
  if c.managed then [] else ["unmanaged"]

/-- Stream segment of the version fields (develop then master). -/
def versionsSegment (c : Config) : List String :=
  optStr c.developVersion ++ optStr c.masterVersion

/-- Stream segment of the ordered upstream remotes. -/
def upstreamsSegment (c : Config) : List String :=
  sjoin (fun u : Upstream => [u.name, u.url]) c.upstreams

/-- Stream segment of the `included` path globs. -/
def includedSegment (c : Config) : List String :=
  c.included

/-- Stream segment of the `excluded` path globs. -/
def excludedSegment (c : Config) : List String :=
  c.excluded

/-- Stream segment of the non-shadow submodules. -/
def submodulesSegment (c : Config) : List String :=
  sjoin Submodule.updateHash (c.submodules.filter (fun i => !i.shadow))

/-- Stream segment of the non-shadow features. -/
def featuresSegment (c : Config) : List String :=
  sjoin Feature.updateHash (c.features.filter (fun i => !i.shadow))

/-- Stream segment of the non-shadow releases. -/
def releasesSegment (c : Config) : List String :=
  sjoin Release.updateHash (c.releases.filter (fun i => !i.shadow))

/-- Stream segment of the non-shadow hotfixes. -/
def hotfixesSegment (c : Config) : List String :=
  sjoin Hotfix.updateHash (c.hotfixes.filter (fun i => !i.shadow))

/-- Stream segment of the supports. -/
def supportsSegment (c : Config) : List String :=
  sjoin Support.updateHash c.supports

/-- Stream segment of the five scalar message/tag templates. -/
def scalarTemplatesSegment (c : Config) : List String :=
  optStr c.featureMessageTemplate ++ optStr c.releaseMessageTemplate
  ++ optStr c.hotfixMessageTemplate ++ optStr c.releaseTagTemplate
  ++ optStr c.hotfixTagTemplate

/-- Stream segment of the named commit message template list. -/
def commitMessageTemplatesSegment (c : Config) : List String :=
  sjoin MessageTemplate.updateHash c.commitMessageTemplates

/-- Stream segment of the named tag template list. -/
def tagTemplatesSegment (c : Config) : List String :=
  sjoin TagTemplate.updateHash c.tagTemplates

/-- Stream segment of all template fields together (the claim's single
"templates" slot). -/
def templatesSegment (c : Config) : List String :=
  scalarTemplatesSegment c ++ commitMessageTemplatesSegment c
  ++ tagTemplatesSegment c

/-- Stream segment of the free-form tags. -/
def tagsSegment (c : Config) : List String :=
  c.tags

/-- Stream segment of the integrations. -/
def integrationsSegment (c : Config) : List String :=
  sjoin Integration.updateHash c.integrations

/-- Stream segment of the master/develop branch-name overrides. -/
def branchOverridesSegment (c : Config) : List String :=
  optStr c.masterBranchName ++ optStr c.developBranchName

/-- Stream segment of the dependency declarations. -/
def dependenciesSegment (c : Config) : List String :=
  sjoin (fun d => [jsonStringify d]) (c.dependencies.getD [])

/-- Stream segment of the labels record. -/
def labelsSegment (c : Config) : List String :=
  recordHash c.labels

/-- Stream segment of the annotations record. -/
def annotationsSegment (c : Config) : List String :=
  recordHash c.annotations

/-- The traversal order asserted by the claim: identifier first, then
apiVersion, then managed, and all template fields in one slot before
integrations and the branch-name overrides. -/
def claimedOrderStream (c : Config) : List String :=
  identifierSegment c ++ apiVersionSegment c ++ managedSegment c
  ++ versionsSegment c ++ upstreamsSegment c ++ includedSegment c
  ++ excludedSegment c ++ submodulesSegment c ++ featuresSegment c
  ++ releasesSegment c ++ hotfixesSegment c ++ supportsSegment c
  ++ templatesSegment c ++ tagsSegment c ++ integrationsSegment c
  ++ branchOverridesSegment c ++ dependenciesSegment c ++ labelsSegment c
  ++ annotationsSegment c

/-- The traversal order the code actually implements: apiVersion before
identifier, and the commit message/tag template lists after integrations,
just before the branch-name overrides. -/
def codeOrderStream (c : Config) : List String :=
  apiVersionSegment c ++ identifierSegment c ++ managedSegment c
  ++ versionsSegment c ++ upstreamsSegment c ++ includedSegment c
  ++ excludedSegment c ++ submodulesSegment c ++ featuresSegment c
  ++ releasesSegment c ++ hotfixesSegment c ++ supportsSegment c
  ++ scalarTemplatesSegment c ++ tagsSegment c ++ integrationsSegment c
  ++ commitMessageTemplatesSegment c ++ tagTemplatesSegment c
  ++ branchOverridesSegment c ++ dependenciesSegment c ++ labelsSegment c
  ++ annotationsSegment c

/-- C4 counterexample: the hash fold visits `apiVersion` before
`identifier`, so a tree with `apiVersion:'A'` and `identifier:'B'` feeds
`A` then `B` while the claimed order would feed `B` then `A`. -/
theorem C4_counterexample :
    Config.updateHash { emptyConfig with apiVersion := some "A", identifier := "B" } ≠
      claimedOrderStream { emptyConfig with apiVersion := some "A", identifier := "B" } := by
  decide

/-- C4 (amended): `computeHash` folds the tree's fields in the fixed
traversal order apiVersion, identifier, managed, developVersion,
masterVersion, upstreams, included, excluded, submodules, features,
releases, hotfixes, supports, the five scalar templates, tags,
integrations, commit message templates, tag templates, branch-name
overrides, dependencies, labels, annotations, recursing into children with
the same rule, with absent optional fields contributing nothing. -/
theorem C4_traversal_order_amended (c : Config) :
    Config.updateHash c = codeOrderStream c := by
  simp [Config.updateHash, Config.hashTail, codeOrderStream, apiVersionSegment,
    identifierSegment, managedSegment, versionsSegment, upstreamsSegment,
    includedSegment, excludedSegment, submodulesSegment, featuresSegment,
    releasesSegment, hotfixesSegment, supportsSegment, scalarTemplatesSegment,
    tagsSegment, integrationsSegment, commitMessageTemplatesSegment,
    tagTemplatesSegment, branchOverridesSegment, dependenciesSegment,
    labelsSegment, annotationsSegment]

/-- C8: `computeHash` is deterministic — validating the same document twice
yields the same tree and the same digest, and the digest of any algorithm
and encoding is a function of nothing but the field stream of the tree. -/
theorem C8_determinism :
    (∀ d : ConfigDoc, validate d = validate d)
    ∧ (∀ d : ConfigDoc,
        Config.computeHash (validate d) = Config.computeHash (validate d))
    ∧ (∀ (digest : String → String) (c : Config),
        Config.calculateHash digest c = digest (String.join (Config.updateHash c)))
    ∧ (∀ (digest : String → String) (c1 c2 : Config),
        Config.updateHash c1 = Config.updateHash c2 →
          Config.calculateHash digest c1 = Config.calculateHash digest c2) := by
  refine ⟨fun d => rfl, fun d => rfl, fun digest c => rfl, ?_⟩
  intro digest c1 c2 h
  simp [Config.calculateHash, h]

/-- C8 witness: the determinism theorem applied to a concrete tree. -/
theorem C8_determinism_witness :
    Config.updateHash emptyConfig = Config.updateHash emptyConfig ∧
      Config.calculateHash id emptyConfig = Config.calculateHash id emptyConfig :=
  ⟨rfl, C8_determinism.2.2.2 id emptyConfig emptyConfig rfl⟩

/-- C5 counterexample: on the 4-segment URI `glfs://h1/ns1/cfg1/sup1` the
parser assigns segments left-to-right (`name` is the third segment and
`support` the fourth), not right-aligned as claimed (which would make
`name` the last segment, `namespace` the second-to-last and `support` the
remaining second slot). -/
theorem C5_counterexample :
    parseConfigReference "glfs://h1/ns1/cfg1/sup1" =
        Except.ok (ConfigReference.glfs (some "h1") "ns1" "cfg1" (some "sup1")) ∧
      parseConfigReference "glfs://h1/ns1/cfg1/sup1" ≠
        Except.ok (ConfigReference.glfs (some "h1") "cfg1" "sup1" (some "ns1")) := by
  refine ⟨rfl, ?_⟩
  decide

/-- C5 (amended): a glfs qualifier with 2 segments yields
`namespace`/`name`, with 3 segments `hostname`/`namespace`/`name`, and with
4 segments the assignment is positional left-to-right
`hostname`/`namespace`/`name`/`support` (the support qualifier is the last
segment, not a right-aligned slot); in particular
`glfs://host1/ns1/cfgname` and `glfs://ns1/cfgname` parse as claimed. -/
theorem C5_glfs_amended :
    (∀ uri q a b : String, uriQualifier uri = some q → uriProtocol uri = "glfs" →
      qualifierSegments q = [a, b] →
        parseConfigReference uri = Except.ok (ConfigReference.glfs none a b none))
    ∧ (∀ uri q a b c : String, uriQualifier uri = some q → uriProtocol uri = "glfs" →
      qualifierSegments q = [a, b, c] →
        parseConfigReference uri = Except.ok (ConfigReference.glfs (some a) b c none))
    ∧ (∀ uri q a b c d : String, uriQualifier uri = some q → uriProtocol uri = "glfs" →
      qualifierSegments q = [a, b, c, d] →
        parseConfigReference uri = Except.ok (ConfigReference.glfs (some a) b c (some d)))
    ∧ parseConfigReference "glfs://host1/ns1/cfgname" =
        Except.ok (ConfigReference.glfs (some "host1") "ns1" "cfgname" none)
    ∧ parseConfigReference "glfs://ns1/cfgname" =
        Except.ok (ConfigReference.glfs none "ns1" "cfgname" none) := by
  refine ⟨?_, ?_, ?_, rfl, rfl⟩
  · intro uri q a b hq hp hseg
    simp [parseConfigReference, hq, hp, hseg]
  · intro uri q a b c hq hp hseg
    simp [parseConfigReference, hq, hp, hseg]
  · intro uri q a b c d hq hp hseg
    simp [parseConfigReference, hq, hp, hseg]

/-- C5 witness: the amended glfs parsing theorem applied to the 2-segment
URI `glfs://x/y`. -/
theorem C5_glfs_amended_witness :
    uriQualifier "glfs://x/y" = some "x/y" ∧
      uriProtocol "glfs://x/y" = "glfs" ∧
      qualifierSegments "x/y" = ["x", "y"] ∧
      parseConfigReference "glfs://x/y" =
        Except.ok (ConfigReference.glfs none "x" "y" none) :=
  ⟨rfl, rfl, rfl, C5_glfs_amended.1 "glfs://x/y" "x/y" "x" "y" rfl rfl rfl⟩

/-- C6: for a URI whose `'://'` split succeeds, parsing fails exactly when
the protocol is outside the recognized set or the protocol is glfs with a
segment count outside 2..4; an unrecognized protocol yields the
unsupported-protocol error carrying the protocol, and a glfs qualifier with
any other segment count yields the malformed-URI error carrying the URI. -/
theorem C6_parse_errors (uri q : String) (hq : uriQualifier uri = some q) :
    ((∃ r, parseConfigReference uri = Except.ok r) ↔
      (uriProtocol uri ∈ configProtocols ∧
        (uriProtocol uri = "glfs" →
          (qualifierSegments q).length = 2 ∨ (qualifierSegments q).length = 3 ∨
            (qualifierSegments q).length = 4)))
    ∧ (uriProtocol uri ∉ configProtocols →
        parseConfigReference uri =
          Except.error (ConfigUriError.unsupportedProtocol (uriProtocol uri)))
    ∧ (uriProtocol uri = "glfs" →
        ¬((qualifierSegments q).length = 2 ∨ (qualifierSegments q).length = 3 ∨
            (qualifierSegments q).length = 4) →
        parseConfigReference uri = Except.error (ConfigUriError.malformedUri uri)) := by
  by_cases h1 : uriProtocol uri = "config"
  · simp [parseConfigReference, hq, h1, configProtocols]
  by_cases h2 : uriProtocol uri = "file"
  · simp [parseConfigReference, hq, h1, h2, configProtocols]
  by_cases h3 : uriProtocol uri = "branch"
  · simp [parseConfigReference, hq, h1, h2, h3, configProtocols]
  by_cases h4 : uriProtocol uri = "http"
  · simp [parseConfigReference, hq, h1, h2, h3, h4, configProtocols]
  by_cases h5 : uriProtocol uri = "https"
  · simp [parseConfigReference, hq, h1, h2, h3, h4, h5, configProtocols]
  by_cases h6 : uriProtocol uri = "glfs"
  · rcases hseg : qualifierSegments q with _ | ⟨a, _ | ⟨b, _ | ⟨c, _ | ⟨d, _ | rest⟩⟩⟩⟩ <;>
      simp [parseConfigReference, hq, h1, h2, h3, h4, h5, h6, hseg, configProtocols]
  · simp [parseConfigReference, hq, h1, h2, h3, h4, h5, h6, configProtocols]

/-- C6 witness: the error-characterization theorem applied to the URI
`branch://release/1.0`, which parses successfully. -/
theorem C6_parse_errors_witness :
    uriQualifier "branch://release/1.0" = some "release/1.0" ∧
      ∃ r, parseConfigReference "branch://release/1.0" = Except.ok r :=
  ⟨rfl, (C6_parse_errors "branch://release/1.0" "release/1.0" rfl).1.mpr (by decide)⟩

/-- The version field `resolveVersion` reads for a given branch selector
(`developVersion` for `'develop'`, `masterVersion` for `'master'`). -/
def Config.selectedVersion (c : Config) (type : BranchType) : Option String :=
  match type with
  | .develop => c.developVersion
  | .master => c.masterVersion

/-- The version field `SupportBase.resolveVersion` reads. -/
def Support.selectedVersion (s : Support) (type : BranchType) : Option String :=
  match type with
  | .develop => s.developVersion
  | .master => s.masterVersion

/-- C7 counterexample: `developVersion:''` is present and unparsable, yet
`resolveVersion` returns nothing instead of failing with a version-format
error — the falsy empty string is treated like absence. -/
theorem C7_counterexample :
    ({ emptyConfig with developVersion := some "" } : Config).developVersion = some "" ∧
      semverClean "" = none ∧
      Config.resolveVersion { emptyConfig with developVersion := some "" }
        BranchType.develop = Except.ok none ∧
      Config.resolveVersion { emptyConfig with developVersion := some "" }
        BranchType.develop ≠
        Except.error (VersionError.versionFormat "") := by
  refine ⟨rfl, rfl, rfl, ?_⟩
  decide

/-- C7 (amended): `resolveVersion(branch)` returns nothing when the
selected version field is absent or the empty string; returns the
normalized semver (tolerating a leading `v` and surrounding whitespace)
when it is parsable; and fails with a version-format error carrying the raw
string when it is nonempty and unparsable — for Config and Support alike. -/
theorem C7_resolve_version_amended :
    (∀ (c : Config) (t : BranchType), Config.selectedVersion c t = none →
      Config.resolveVersion c t = Except.ok none)
    ∧ (∀ (c : Config) (t : BranchType), Config.selectedVersion c t = some "" →
      Config.resolveVersion c t = Except.ok none)
    ∧ (∀ (c : Config) (t : BranchType) (v w : String),
        Config.selectedVersion c t = some v → v ≠ "" → semverClean v = some w →
          Config.resolveVersion c t = Except.ok (some w))
    ∧ (∀ (c : Config) (t : BranchType) (v : String),
        Config.selectedVersion c t = some v → v ≠ "" → semverClean v = none →
          Config.resolveVersion c t = Except.error (VersionError.versionFormat v))
    ∧ (∀ (s : Support) (t : BranchType), Support.selectedVersion s t = none →
      Support.resolveVersion s t = Except.ok none)
    ∧ (∀ (s : Support) (t : BranchType) (v w : String),
        Support.selectedVersion s t = some v → v ≠ "" → semverClean v = some w →
          Support.resolveVersion s t = Except.ok (some w))
    ∧ (∀ (s : Support) (t : BranchType) (v : String),
        Support.selectedVersion s t = some v → v ≠ "" → semverClean v = none →
          Support.resolveVersion s t = Except.error (VersionError.versionFormat v))
    ∧ semverClean "v1.2.3" = some "1.2.3"
    ∧ semverClean " 1.2.3 " = some "1.2.3"
    ∧ semverClean "garbage" = none
    ∧ Config.resolveVersion { emptyConfig with developVersion := some "1.2.3" }
        BranchType.develop = Except.ok (some "1.2.3") := by
  refine ⟨?_, ?_, ?_, ?_, ?_, ?_, ?_, by decide, by decide, by decide, by decide⟩
  · intro c t h
    cases t <;> simp_all [Config.resolveVersion, Config.selectedVersion]
  · intro c t h
    cases t <;> simp_all [Config.resolveVersion, Config.selectedVersion]
  · intro c t v w hsel hne hcl
    cases t <;> simp_all [Config.resolveVersion, Config.selectedVersion]
  · intro c t v hsel hne hcl
    cases t <;> simp_all [Config.resolveVersion, Config.selectedVersion]
  · intro s t h
    cases t <;> simp_all [Support.resolveVersion, Support.selectedVersion]
  · intro s t v w hsel hne hcl
    cases t <;> simp_all [Support.resolveVersion, Support.selectedVersion]
  · intro s t v hsel hne hcl
    cases t <;> simp_all [Support.resolveVersion, Support.selectedVersion]

/-- C7 witness: the amended resolution theorem applied to a tree declaring
`developVersion:'v1.2.3'`, which resolves to `1.2.3`. -/
theorem C7_resolve_version_amended_witness :
    Config.selectedVersion { emptyConfig with developVersion := some "v1.2.3" }
        BranchType.develop = some "v1.2.3" ∧
      semverClean "v1.2.3" = some "1.2.3" ∧
      Config.resolveVersion { emptyConfig with developVersion := some "v1.2.3" }
        BranchType.develop = Except.ok (some "1.2.3") :=
  ⟨rfl, by decide,
    C7_resolve_version_amended.2.2.1
      { emptyConfig with developVersion := some "v1.2.3" }
      BranchType.develop "v1.2.3" "1.2.3" rfl (by decide) (by decide)⟩

/-- Filtering ignores an inserted element the predicate rejects. -/
theorem filter_insert_of_neg {α : Type} (p : α → Bool) (x : α) (l1 l2 : List α)
    (h : p x = false) :
    (l1 ++ x :: l2).filter p = (l1 ++ l2).filter p := by
  simp [List.filter_append, List.filter_cons, h]

/-- C2: inserting a shadow-flagged Submodule, Feature, Release or Hotfix
anywhere in the corresponding list — at the top level or inside a Support —
changes neither the hash stream nor the canonical document, while the entry
remains present in the in-memory tree. -/
theorem C2_shadow_exclusion :
    (∀ (c : Config) (s : Submodule) (l1 l2 : List Submodule), s.shadow = true →
      Config.computeHash { c with submodules := l1 ++ s :: l2 } =
          Config.computeHash { c with submodules := l1 ++ l2 } ∧
        Config.toHash false { c with submodules := l1 ++ s :: l2 } =
          Config.toHash false { c with submodules := l1 ++ l2 } ∧
        s ∈ ({ c with submodules := l1 ++ s :: l2 } : Config).submodules)
    ∧ (∀ (c : Config) (f : Feature) (l1 l2 : List Feature), f.shadow = true →
      Config.computeHash { c with features := l1 ++ f :: l2 } =
          Config.computeHash { c with features := l1 ++ l2 } ∧
        Config.toHash false { c with features := l1 ++ f :: l2 } =
          Config.toHash false { c with features := l1 ++ l2 } ∧
        f ∈ ({ c with features := l1 ++ f :: l2 } : Config).features)
    ∧ (∀ (c : Config) (r : Release) (l1 l2 : List Release), r.shadow = true →
      Config.computeHash { c with releases := l1 ++ r :: l2 } =
          Config.computeHash { c with releases := l1 ++ l2 } ∧
        Config.toHash false { c with releases := l1 ++ r :: l2 } =
          Config.toHash false { c with releases := l1 ++ l2 } ∧
        r ∈ ({ c with releases := l1 ++ r :: l2 } : Config).releases)
    ∧ (∀ (c : Config) (x : Hotfix) (l1 l2 : List Hotfix), x.shadow = true →
      Config.computeHash { c with hotfixes := l1 ++ x :: l2 } =
          Config.computeHash { c with hotfixes := l1 ++ l2 } ∧
        Config.toHash false { c with hotfixes := l1 ++ x :: l2 } =
          Config.toHash false { c with hotfixes := l1 ++ l2 } ∧
        x ∈ ({ c with hotfixes := l1 ++ x :: l2 } : Config).hotfixes)
    ∧ (∀ (s : Support) (f : Feature) (l1 l2 : List Feature), f.shadow = true →
      Support.updateHash { s with features := l1 ++ f :: l2 } =
          Support.updateHash { s with features := l1 ++ l2 } ∧
        Support.toHash { s with features := l1 ++ f :: l2 } =
          Support.toHash { s with features := l1 ++ l2 })
    ∧ (∀ (s : Support) (r : Release) (l1 l2 : List Release), r.shadow = true →
      Support.updateHash { s with releases := l1 ++ r :: l2 } =
          Support.updateHash { s with releases := l1 ++ l2 } ∧
        Support.toHash { s with releases := l1 ++ r :: l2 } =
          Support.toHash { s with releases := l1 ++ l2 })
    ∧ (∀ (s : Support) (x : Hotfix) (l1 l2 : List Hotfix), x.shadow = true →
      Support.updateHash { s with hotfixes := l1 ++ x :: l2 } =
          Support.updateHash { s with hotfixes := l1 ++ l2 } ∧
        Support.toHash { s with hotfixes := l1 ++ x :: l2 } =
          Support.toHash { s with hotfixes := l1 ++ l2 }) := by
  refine ⟨?_, ?_, ?_, ?_, ?_, ?_, ?_⟩
  · intro c s l1 l2 h
    have hf := filter_insert_of_neg (fun i : Submodule => !i.shadow) s l1 l2 (by simp [h])
    exact ⟨by simp [Config.computeHash, Config.updateHash, Config.hashTail, hf],
      by simp [Config.toHash, hf], by simp⟩
  · intro c f l1 l2 h
    have hf := filter_insert_of_neg (fun i : Feature => !i.shadow) f l1 l2 (by simp [h])
    exact ⟨by simp [Config.computeHash, Config.updateHash, Config.hashTail, hf],
      by simp [Config.toHash, hf], by simp⟩
  · intro c r l1 l2 h
    have hf := filter_insert_of_neg (fun i : Release => !i.shadow) r l1 l2 (by simp [h])
    exact ⟨by simp [Config.computeHash, Config.updateHash, Config.hashTail, hf],
      by simp [Config.toHash, hf], by simp⟩
  · intro c x l1 l2 h
    have hf := filter_insert_of_neg (fun i : Hotfix => !i.shadow) x l1 l2 (by simp [h])
    exact ⟨by simp [Config.computeHash, Config.updateHash, Config.hashTail, hf],
      by simp [Config.toHash, hf], by simp⟩
  · intro s f l1 l2 h
    have hf := filter_insert_of_neg (fun i : Feature => !i.shadow) f l1 l2 (by simp [h])
    exact ⟨by simp [Support.updateHash, hf], by simp [Support.toHash, hf]⟩
  · intro s r l1 l2 h
    have hf := filter_insert_of_neg (fun i : Release => !i.shadow) r l1 l2 (by simp [h])
    exact ⟨by simp [Support.updateHash, hf], by simp [Support.toHash, hf]⟩
  · intro s x l1 l2 h
    have hf := filter_insert_of_neg (fun i : Hotfix => !i.shadow) x l1 l2 (by simp [h])
    exact ⟨by simp [Support.updateHash, hf], by simp [Support.toHash, hf]⟩

/-- C2 witness: inserting the concrete shadow submodule `m` into the empty
tree leaves both digest and canonical document unchanged. -/
theorem C2_shadow_exclusion_witness :
    (Submodule.mk "m" "p" none [] [] [] true).shadow = true ∧
      Config.computeHash
          { emptyConfig with submodules := [Submodule.mk "m" "p" none [] [] [] true] } =
        Config.computeHash { emptyConfig with submodules := [] } ∧
      Config.toHash false
          { emptyConfig with submodules := [Submodule.mk "m" "p" none [] [] [] true] } =
        Config.toHash false { emptyConfig with submodules := [] } ∧
      Submodule.mk "m" "p" none [] [] [] true ∈
        ({ emptyConfig with
            submodules := [Submodule.mk "m" "p" none [] [] [] true] } : Config).submodules :=
  ⟨rfl,
    C2_shadow_exclusion.1 emptyConfig (Submodule.mk "m" "p" none [] [] [] true) [] [] rfl⟩

/-! Round-trip machinery for the canonical serializer. -/

/-- Reading an omitted-when-empty collection back with an empty default
recovers the collection. -/
theorem optList_getD {α : Type} (l : List α) : (optList l).getD [] = l := by
  cases l <;> simp [optList]

/-- Reading an omitted-when-empty record back with an empty default
recovers the record. -/
theorem optAssoc_getD (l : List (String × Json)) : (optAssoc l).getD [] = l := by
  cases l <;> simp [optAssoc]

/-- Reading an omitted-when-empty mapped collection back with an empty
default recovers the mapped collection. -/
theorem emit_getD {α β : Type} (l : List α) (g : α → β) :
    ((if l.isEmpty then none else some (l.map g)) : Option (List β)).getD []
      = l.map g := by
  cases l <;> simp

/-- A non-shadow submodule survives canonicalization and re-validation. -/
theorem validateSubmodule_toHash (s : Submodule) (h : s.shadow = false) :
    validateSubmodule (Submodule.toHash s) = s := by
  cases s
  simp_all [validateSubmodule, Submodule.toHash, optList_getD, optAssoc_getD]

/-- A non-shadow feature with no tags survives canonicalization and
re-validation (its Tagging list would be dropped otherwise). -/
theorem validateFeature_toHash (f : Feature) (hs : f.shadow = false)
    (ht : f.tags = []) : validateFeature (Feature.toHash f) = f := by
  cases f
  simp_all [validateFeature, Feature.toHash]

/-- A non-shadow release with no tags survives canonicalization and
re-validation. -/
theorem validateRelease_toHash (r : Release) (hs : r.shadow = false)
    (ht : r.tags = []) : validateRelease (Release.toHash r) = r := by
  cases r
  simp_all [validateRelease, Release.toHash]

/-- A non-shadow hotfix with no tags survives canonicalization and
re-validation. -/
theorem validateHotfix_toHash (x : Hotfix) (hs : x.shadow = false)
    (ht : x.tags = []) : validateHotfix (Hotfix.toHash x) = x := by
  cases x
  simp_all [validateHotfix, Hotfix.toHash]

/-- An integration survives canonicalization and re-validation. -/
theorem validateIntegration_toHash (i : Integration) :
    validateIntegration (Integration.toHash i) = i := by
  cases i
  simp [validateIntegration, Integration.toHash, optAssoc_getD]

/-- Canonicalizing and re-validating an emitted entity list recovers the
list, given a pointwise round-trip. -/
theorem emit_map_validate {α β : Type} (l : List α) (g : α → β) (v : β → α)
    (h : ∀ x ∈ l, v (g x) = x) :
    (((if l.isEmpty then none else some (l.map g)) : Option (List β)).getD []).map v
      = l := by
  rw [emit_getD, List.map_map]
  have hcongr : ∀ x ∈ l, (v ∘ g) x = id x := fun x hx => h x hx
  rw [List.map_congr_left hcongr, List.map_id]

/-- A support whose lineages hold no shadow entries and no branch tags
survives canonicalization and re-validation. -/
theorem validateSupport_toHash (s : Support)
    (hf : s.features.all (fun i => !i.shadow) = true)
    (hr : s.releases.all (fun i => !i.shadow) = true)
    (hh : s.hotfixes.all (fun i => !i.shadow) = true)
    (tf : s.features.all (fun i => i.tags.isEmpty) = true)
    (tr : s.releases.all (fun i => i.tags.isEmpty) = true)
    (th : s.hotfixes.all (fun i => i.tags.isEmpty) = true) :
    validateSupport (Support.toHash s) = s := by
  have hf2 : s.features.filter (fun i => !i.shadow) = s.features :=
    List.filter_eq_self.mpr (fun a ha => List.all_eq_true.mp hf a ha)
  have hr2 : s.releases.filter (fun i => !i.shadow) = s.releases :=
    List.filter_eq_self.mpr (fun a ha => List.all_eq_true.mp hr a ha)
  have hh2 : s.hotfixes.filter (fun i => !i.shadow) = s.hotfixes :=
    List.filter_eq_self.mpr (fun a ha => List.all_eq_true.mp hh a ha)
  have hfm : (((if s.features.isEmpty then none
      else some (s.features.map Feature.toHash)) : Option (List FeatureDoc)).getD []).map
        validateFeature = s.features := by
    refine emit_map_validate s.features Feature.toHash validateFeature ?_
    intro x hx
    refine validateFeature_toHash x ?_ ?_
    · simpa using List.all_eq_true.mp hf x hx
    · simpa using List.all_eq_true.mp tf x hx
  have hrm : (((if s.releases.isEmpty then none
      else some (s.releases.map Release.toHash)) : Option (List ReleaseDoc)).getD []).map
        validateRelease = s.releases := by
    refine emit_map_validate s.releases Release.toHash validateRelease ?_
    intro x hx
    refine validateRelease_toHash x ?_ ?_
    · simpa using List.all_eq_true.mp hr x hx
    · simpa using List.all_eq_true.mp tr x hx
  have hhm : (((if s.hotfixes.isEmpty then none
      else some (s.hotfixes.map Hotfix.toHash)) : Option (List HotfixDoc)).getD []).map
        validateHotfix = s.hotfixes := by
    refine emit_map_validate s.hotfixes Hotfix.toHash validateHotfix ?_
    intro x hx
    refine validateHotfix_toHash x ?_ ?_
    · simpa using List.all_eq_true.mp hh x hx
    · simpa using List.all_eq_true.mp th x hx
  simp only [validateSupport, Support.toHash, hf2, hr2, hh2, hfm, hrm, hhm]

/-- Absence of shadow-flagged entries anywhere in the tree (top-level
submodules/features/releases/hotfixes and each support's lineages). -/
def Config.noShadowB (c : Config) : Bool :=
  c.submodules.all (fun i => !i.shadow) && c.features.all (fun i => !i.shadow)
  && c.releases.all (fun i => !i.shadow) && c.hotfixes.all (fun i => !i.shadow)
  && c.supports.all (fun s =>
      s.features.all (fun i => !i.shadow) && s.releases.all (fun i => !i.shadow)
        && s.hotfixes.all (fun i => !i.shadow))

/-- Absence of Tagging entries on every Feature/Release/Hotfix of the tree
(top-level and inside each support). -/
def Config.noBranchTagsB (c : Config) : Bool :=
  c.features.all (fun i => i.tags.isEmpty) && c.releases.all (fun i => i.tags.isEmpty)
  && c.hotfixes.all (fun i => i.tags.isEmpty)
  && c.supports.all (fun s =>
      s.features.all (fun i => i.tags.isEmpty) && s.releases.all (fun i => i.tags.isEmpty)
        && s.hotfixes.all (fun i => i.tags.isEmpty))

/-- Canonicalizing a tree without shadow entries or branch tags and
re-validating it recovers the tree, except that an explicitly-empty
dependency list collapses to an absent one. -/
theorem validate_toCanonical (c : Config)
    (hsh : Config.noShadowB c = true) (htg : Config.noBranchTagsB c = true) :
    validate (toCanonical c) = { c with dependencies := (toCanonical c).dependencies } := by
  simp only [Config.noShadowB, Bool.and_eq_true] at hsh
  simp only [Config.noBranchTagsB, Bool.and_eq_true] at htg
  obtain ⟨⟨⟨⟨hs1, hs2⟩, hs3⟩, hs4⟩, hs5⟩ := hsh
  obtain ⟨⟨⟨ht1, ht2⟩, ht3⟩, ht4⟩ := htg
  have hsub : c.submodules.filter (fun i => !i.shadow) = c.submodules :=
    List.filter_eq_self.mpr (fun a ha => List.all_eq_true.mp hs1 a ha)
  have hfea : c.features.filter (fun i => !i.shadow) = c.features :=
    List.filter_eq_self.mpr (fun a ha => List.all_eq_true.mp hs2 a ha)
  have hrel : c.releases.filter (fun i => !i.shadow) = c.releases :=
    List.filter_eq_self.mpr (fun a ha => List.all_eq_true.mp hs3 a ha)
  have hhot : c.hotfixes.filter (fun i => !i.shadow) = c.hotfixes :=
    List.filter_eq_self.mpr (fun a ha => List.all_eq_true.mp hs4 a ha)
  have hsubm : (((if c.submodules.isEmpty then none
      else some (c.submodules.map Submodule.toHash)) : Option (List SubmoduleDoc)).getD
        []).map validateSubmodule = c.submodules := by
    refine emit_map_validate c.submodules Submodule.toHash validateSubmodule ?_
    intro x hx
    exact validateSubmodule_toHash x (by simpa using List.all_eq_true.mp hs1 x hx)
  have hfeam : (((if c.features.isEmpty then none
      else some (c.features.map Feature.toHash)) : Option (List FeatureDoc)).getD
        []).map validateFeature = c.features := by
    refine emit_map_validate c.features Feature.toHash validateFeature ?_
    intro x hx
    refine validateFeature_toHash x ?_ ?_
    · simpa using List.all_eq_true.mp hs2 x hx
    · simpa using List.all_eq_true.mp ht1 x hx
  have hrelm : (((if c.releases.isEmpty then none
      else some (c.releases.map Release.toHash)) : Option (List ReleaseDoc)).getD
        []).map validateRelease = c.releases := by
    refine emit_map_validate c.releases Release.toHash validateRelease ?_
    intro x hx
    refine validateRelease_toHash x ?_ ?_
    · simpa using List.all_eq_true.mp hs3 x hx
    · simpa using List.all_eq_true.mp ht2 x hx
  have hhotm : (((if c.hotfixes.isEmpty then none
      else some (c.hotfixes.map Hotfix.toHash)) : Option (List HotfixDoc)).getD
        []).map validateHotfix = c.hotfixes := by
    refine emit_map_validate c.hotfixes Hotfix.toHash validateHotfix ?_
    intro x hx
    refine validateHotfix_toHash x ?_ ?_
    · simpa using List.all_eq_true.mp hs4 x hx
    · simpa using List.all_eq_true.mp ht3 x hx
  have hsupm : (((if c.supports.isEmpty then none
      else some (c.supports.map Support.toHash)) : Option (List SupportDoc)).getD
        []).map validateSupport = c.supports := by
    refine emit_map_validate c.supports Support.toHash validateSupport ?_
    intro x hx
    have h1 := List.all_eq_true.mp hs5 x hx
    have h2 := List.all_eq_true.mp ht4 x hx
    simp only [Bool.and_eq_true] at h1 h2
    exact validateSupport_toHash x h1.1.1 h1.1.2 h1.2 h2.1.1 h2.1.2 h2.2
  have hintm : (((if c.integrations.isEmpty then none
      else some (c.integrations.map Integration.toHash)) : Option (List IntegrationDoc)).getD
        []).map validateIntegration = c.integrations := by
    refine emit_map_validate c.integrations Integration.toHash validateIntegration ?_
    intro x _
    exact validateIntegration_toHash x
  have hmsg : ((if c.commitMessageTemplates.isEmpty then none
      else some (c.commitMessageTemplates.map MessageTemplate.toHash))
        : Option (List MessageTemplate)).getD [] = c.commitMessageTemplates := by
    rw [emit_getD]
    have hid : MessageTemplate.toHash = id := funext fun m => rfl
    rw [hid, List.map_id]
  have htag : ((if c.tagTemplates.isEmpty then none
      else some (c.tagTemplates.map TagTemplate.toHash))
        : Option (List TagTemplate)).getD [] = c.tagTemplates := by
    rw [emit_getD]
    have hid : TagTemplate.toHash = id := funext fun t => by cases t; rfl
    rw [hid, List.map_id]
  have hman : ((if c.managed then none else some false) : Option Bool).getD true
      = c.managed := by
    cases hc : c.managed <;> simp
  simp only [validate, toCanonical, Config.toHash, hsub, hfea, hrel, hhot,
    hsubm, hfeam, hrelm, hhotm, hsupm, hintm, hmsg, htag, hman, optList_getD,
    optAssoc_getD, Config.mk.injEq, if_false, Bool.false_eq_true]

/-- The dependencies read back from a canonical document feed the same hash
stream as the original dependencies. -/
theorem canonical_dependencies_getD (c : Config) :
    ((toCanonical c).dependencies).getD [] = c.dependencies.getD [] := by
  simp only [toCanonical, Config.toHash]
  cases c.dependencies with
  | none => rfl
  | some l => cases l <;> simp

/-- A tree with one tagged feature and no shadow entries. -/
def taggedFeatureConfig : Config :=
  { emptyConfig with
      identifier := "i",
      features := [{ sampleFeature with tags := [⟨"t", none⟩] }] }

/-- A small shadow-free, tag-free tree with an upstream, a feature and a
submodule. -/
def roundtripSample : Config :=
  { emptyConfig with
      identifier := "i",
      upstreams := [⟨"u", "url"⟩],
      features := [sampleFeature],
      submodules := [Submodule.mk "m" "p" none [] [] [] false] }

/-- C1 counterexample: a tree with no shadow entries but one tagged feature
violates the round-trip law — the canonical serialization drops the
feature's Tagging list, so the re-validated tree hashes differently. -/
theorem C1_counterexample :
    Config.noShadowB taggedFeatureConfig = true ∧
      Config.computeHash (validate (toCanonical taggedFeatureConfig)) ≠
        Config.computeHash taggedFeatureConfig := by
  constructor
  · decide
  · decide

/-- C1 (amended): `computeHash(validate(toCanonical(tree)))` equals
`computeHash(tree)` whenever the tree contains no shadow entries and no
Feature/Release/Hotfix in the tree (top-level or under a support) carries a
Tagging entry — the extra condition is forced because the canonical
serializer drops branch Tagging lists while the hash includes them. -/
theorem C1_roundtrip_amended (c : Config)
    (hsh : Config.noShadowB c = true) (htg : Config.noBranchTagsB c = true) :
    Config.computeHash (validate (toCanonical c)) = Config.computeHash c := by
  rw [validate_toCanonical c hsh htg]
  simp [Config.computeHash, Config.updateHash, Config.hashTail,
    canonical_dependencies_getD]

/-- C1 witness: the amended round-trip law applied to a small tree with an
upstream, a feature without tags and a submodule. -/
theorem C1_roundtrip_amended_witness :
    Config.noShadowB roundtripSample = true ∧
      Config.noBranchTagsB roundtripSample = true ∧
      Config.computeHash (validate (toCanonical roundtripSample)) =
        Config.computeHash roundtripSample :=
  ⟨by decide, by decide, C1_roundtrip_amended roundtripSample (by decide) (by decide)⟩

end Glf
